import Mathlib

/-!
# Verification of `mqtt_pressure_sensor.h`

The header consists of sixteen object-like preprocessor definitions: the
settings validity flag, five buffer capacities and eight connection result
codes copied from the MQTT client library.  Every definition of the header is
embedded below under its own name, as the integer its replacement text denotes
(`-2` is the literal `2` under unary minus; `0xDAB0` is a hexadecimal literal).

Statements about storing such a value in a fixed-width C integer use the usual
embedding of machine integers as mathematical integers reduced modulo `2 ^ w`.
-/

namespace MqttPressureSensor

/-! ## The header, line by line -/

/-- Line 1: `#define VALID_SETTINGS_FLAG 0xDAB0`. -/
def VALID_SETTINGS_FLAG : Int := 0xDAB0

/-- Line 2: `#define SSID_SIZE 100`. -/
def SSID_SIZE : Nat := 100

/-- Line 3: `#define PASSWORD_SIZE 50`. -/
def PASSWORD_SIZE : Nat := 50

/-- Line 4: `#define ADDRESS_SIZE 30`. -/
def ADDRESS_SIZE : Nat := 30

/-- Line 5: `#define USERNAME_SIZE 50`. -/
def USERNAME_SIZE : Nat := 50

/-- Line 6: `#define MQTT_TOPIC_SIZE 150`. -/
def MQTT_TOPIC_SIZE : Nat := 150

/-- Line 9: `#define MQTT_CONNECTION_REFUSED -2`. -/
def MQTT_CONNECTION_REFUSED : Int := -2

/-- Line 10: `#define MQTT_CONNECTION_TIMEOUT -1`. -/
def MQTT_CONNECTION_TIMEOUT : Int := -1

/-- Line 11: `#define MQTT_SUCCESS 0`. -/
def MQTT_SUCCESS : Int := 0

/-- Line 12: `#define MQTT_UNACCEPTABLE_PROTOCOL_VERSION 1`. -/
def MQTT_UNACCEPTABLE_PROTOCOL_VERSION : Int := 1

/-- Line 13: `#define MQTT_IDENTIFIER_REJECTED 2`. -/
def MQTT_IDENTIFIER_REJECTED : Int := 2

/-- Line 14: `#define MQTT_SERVER_UNAVAILABLE 3`. -/
def MQTT_SERVER_UNAVAILABLE : Int := 3

/-- Line 15: `#define MQTT_BAD_USER_NAME_OR_PASSWORD 4`. -/
def MQTT_BAD_USER_NAME_OR_PASSWORD : Int := 4

/-- Line 16: `#define MQTT_NOT_AUTHORIZED 5`. -/
def MQTT_NOT_AUTHORIZED : Int := 5

/-- The eight connection result codes of lines 9 to 16, in the order in which
the header lists them. -/
def connectionCodes : List Int :=
  [MQTT_CONNECTION_REFUSED, MQTT_CONNECTION_TIMEOUT, MQTT_SUCCESS,
   MQTT_UNACCEPTABLE_PROTOCOL_VERSION, MQTT_IDENTIFIER_REJECTED,
   MQTT_SERVER_UNAVAILABLE, MQTT_BAD_USER_NAME_OR_PASSWORD, MQTT_NOT_AUTHORIZED]

/-! ## Fixed-width C integers -/

/-- Value held by an unsigned C integer of `w` bits after `v` is stored in it:
`v` reduced modulo `2 ^ w`. -/
def wrapUnsigned (w : Nat) (v : Int) : Int :=
  v % 2 ^ w

/-- Value held by a signed two's-complement C integer of `w` bits after `v` is
stored in it: the representative of `v` modulo `2 ^ w` in
`[-2 ^ (w - 1), 2 ^ (w - 1))`. -/
def wrapSigned (w : Nat) (v : Int) : Int :=
  (v + 2 ^ (w - 1)) % 2 ^ w - 2 ^ (w - 1)

/-- Value held by an integer field of `w` bits after `v` is stored in it, the
field being signed or unsigned. -/
def storeField (isSigned : Bool) (w : Nat) (v : Int) : Int :=
  if isSigned then wrapSigned w v else wrapUnsigned w v

/-- Two storage bytes read as a 16-bit word, first byte least significant. -/
def wordLE (b0 b1 : Int) : Int :=
  b0 + 256 * b1

/-- Two storage bytes read as a 16-bit word, first byte most significant. -/
def wordBE (b0 b1 : Int) : Int :=
  256 * b0 + b1

/-! ## Parts named by the specification that the header does not declare -/

/-- Modelled from the spec: the header declares the eight result codes as bare
integer definitions and no enumeration type; the specification names the
outcomes of a connect attempt (refused, timeout, success, protocol version
rejected, identifier rejected, server unavailable, bad credentials, not
authorized) and writes two of them `ConnectionTimeout` and `NotAuthorized`. -/
inductive ConnectResult where
  | ConnectionRefused
  | ConnectionTimeout
  | Success
  | UnacceptableProtocolVersion
  | IdentifierRejected
  | ServerUnavailable
  | BadUserNameOrPassword
  | NotAuthorized
  deriving DecidableEq, Repr

/-- Modelled from the spec: the map `result_to_int` of the specification, which
is not a function of the header.  Each outcome is sent to the header definition
of the same name, so its values are those of lines 9 to 16. -/
def result_to_int : ConnectResult → Int
  | .ConnectionRefused => MQTT_CONNECTION_REFUSED
  | .ConnectionTimeout => MQTT_CONNECTION_TIMEOUT
  | .Success => MQTT_SUCCESS
  | .UnacceptableProtocolVersion => MQTT_UNACCEPTABLE_PROTOCOL_VERSION
  | .IdentifierRejected => MQTT_IDENTIFIER_REJECTED
  | .ServerUnavailable => MQTT_SERVER_UNAVAILABLE
  | .BadUserNameOrPassword => MQTT_BAD_USER_NAME_OR_PASSWORD
  | .NotAuthorized => MQTT_NOT_AUTHORIZED

/-- Modelled from the spec: the inverse `int_to_result` of `result_to_int`,
which is not a function of the header.  An integer is compared with the header
definitions in the order of lines 9 to 16; an integer equal to none of them
names no outcome. -/
def int_to_result (z : Int) : Option ConnectResult :=
  if z = MQTT_CONNECTION_REFUSED then some .ConnectionRefused
  else if z = MQTT_CONNECTION_TIMEOUT then some .ConnectionTimeout
  else if z = MQTT_SUCCESS then some .Success
  else if z = MQTT_UNACCEPTABLE_PROTOCOL_VERSION then some .UnacceptableProtocolVersion
  else if z = MQTT_IDENTIFIER_REJECTED then some .IdentifierRejected
  else if z = MQTT_SERVER_UNAVAILABLE then some .ServerUnavailable
  else if z = MQTT_BAD_USER_NAME_OR_PASSWORD then some .BadUserNameOrPassword
  else if z = MQTT_NOT_AUTHORIZED then some .NotAuthorized
  else none

/-- Modelled from the spec: the settings record, whose declaration is not in
the header.  The specification gives it five text fields of bounded capacity
(SSID, password, broker address, username, MQTT topic), here lists of bytes,
and a 16-bit validity marker. -/
structure Settings where
  ssid : List Nat
  password : List Nat
  address : List Nat
  username : List Nat
  topic : List Nat
  marker : Int
  deriving DecidableEq, Repr

/-- Modelled from the spec: the shape of a settings record, whose declaration
is not in the header.  Each text field fits the capacity the header defines
for it and the marker is a 16-bit value. -/
def Settings.wellFormed (r : Settings) : Bool :=
  decide (r.ssid.length ≤ SSID_SIZE) && decide (r.password.length ≤ PASSWORD_SIZE) &&
  decide (r.address.length ≤ ADDRESS_SIZE) && decide (r.username.length ≤ USERNAME_SIZE) &&
  decide (r.topic.length ≤ MQTT_TOPIC_SIZE) &&
  decide (0 ≤ r.marker) && decide (r.marker < 2 ^ 16)

/-- Modelled from the spec: the validity check `is_valid`, which is not a
function of the header.  The specification defines it as
`is_valid(record) == (record.marker == 0xDAB0)`; the comparison is made with
the header definition `VALID_SETTINGS_FLAG`. -/
def is_valid (r : Settings) : Bool :=
  r.marker == VALID_SETTINGS_FLAG

/-- A record filled in by provisioning and marked with the flag. -/
def configuredRecord : Settings :=
  { ssid := [104, 111, 109, 101], password := [115, 101, 99, 114, 101, 116],
    address := [49, 48, 46, 48, 46, 48, 46, 50], username := [117],
    topic := [112, 115, 105], marker := 0xDAB0 }

/-- The same record as read from erased storage: every marker bit is set. -/
def erasedRecord : Settings :=
  { configuredRecord with marker := 0xFFFF }

/-! ## Auxiliary lemmas -/

theorem two_pow_pred_double (w : Nat) (hw : 1 ≤ w) :
    (2 : Int) ^ w = 2 * 2 ^ (w - 1) := by
  obtain ⟨k, rfl⟩ : ∃ k, w = k + 1 := ⟨w - 1, by omega⟩
  simp [pow_succ, mul_comm]

theorem wrapSigned_eq_self (w : Nat) (hw : 1 ≤ w) (v : Int)
    (hlo : -(2 : Int) ^ (w - 1) ≤ v) (hhi : v < 2 ^ (w - 1)) :
    wrapSigned w v = v := by
  unfold wrapSigned
  have hd := two_pow_pred_double w hw
  have hmod : (v + 2 ^ (w - 1)) % 2 ^ w = v + 2 ^ (w - 1) := by
    apply Int.emod_eq_of_lt
    · linarith
    · rw [hd]; linarith
  rw [hmod]; ring

theorem pow_pred_ge_128 (w : Nat) (hw : 8 ≤ w) : (128 : Int) ≤ 2 ^ (w - 1) := by
  have h : (2 : Int) ^ 7 ≤ 2 ^ (w - 1) :=
    pow_le_pow_right₀ (by norm_num) (by omega)
  norm_num at h
  exact h

theorem mem_connectionCodes_iff (z : Int) :
    z ∈ connectionCodes ↔ -2 ≤ z ∧ z ≤ 5 := by
  simp only [connectionCodes, MQTT_CONNECTION_REFUSED, MQTT_CONNECTION_TIMEOUT, MQTT_SUCCESS,
    MQTT_UNACCEPTABLE_PROTOCOL_VERSION, MQTT_IDENTIFIER_REJECTED, MQTT_SERVER_UNAVAILABLE,
    MQTT_BAD_USER_NAME_OR_PASSWORD, MQTT_NOT_AUTHORIZED, List.mem_cons, List.mem_singleton,
    List.mem_nil_iff, or_false]
  omega

theorem result_to_int_mem (r : ConnectResult) : result_to_int r ∈ connectionCodes := by
  cases r <;> simp [result_to_int, connectionCodes]

theorem int_to_result_result_to_int (r : ConnectResult) :
    int_to_result (result_to_int r) = some r := by
  cases r <;> decide

theorem result_to_int_injective : Function.Injective result_to_int := by
  intro a b h
  have ha := int_to_result_result_to_int a
  rw [h, int_to_result_result_to_int b] at ha
  exact (Option.some.inj ha).symm

/-! ## The claims -/

/-- C1: the eight connection result definitions of the header have exactly the
values of the table (-2, -1, 0, 1, 2, 3, 4, 5, in the order refused, timeout,
success, unacceptable protocol version, identifier rejected, server
unavailable, bad user name or password, not authorized), and `result_to_int`
sends `NotAuthorized` to 5 and `ConnectionTimeout` to -1. -/
theorem connection_result_values :
    MQTT_CONNECTION_REFUSED = -2 ∧ MQTT_CONNECTION_TIMEOUT = -1 ∧ MQTT_SUCCESS = 0 ∧
    MQTT_UNACCEPTABLE_PROTOCOL_VERSION = 1 ∧ MQTT_IDENTIFIER_REJECTED = 2 ∧
    MQTT_SERVER_UNAVAILABLE = 3 ∧ MQTT_BAD_USER_NAME_OR_PASSWORD = 4 ∧
    MQTT_NOT_AUTHORIZED = 5 ∧
    result_to_int .NotAuthorized = 5 ∧ result_to_int .ConnectionTimeout = -1 := by
  decide

/-- C2: the five capacity definitions of the header are `SSID_SIZE = 100`,
`PASSWORD_SIZE = 50`, `ADDRESS_SIZE = 30`, `USERNAME_SIZE = 50` and
`MQTT_TOPIC_SIZE = 150`, and each of them is positive. -/
theorem field_sizes :
    SSID_SIZE = 100 ∧ PASSWORD_SIZE = 50 ∧ ADDRESS_SIZE = 30 ∧ USERNAME_SIZE = 50 ∧
    MQTT_TOPIC_SIZE = 150 ∧
    0 < SSID_SIZE ∧ 0 < PASSWORD_SIZE ∧ 0 < ADDRESS_SIZE ∧ 0 < USERNAME_SIZE ∧
    0 < MQTT_TOPIC_SIZE := by
  decide

/-- C3: `VALID_SETTINGS_FLAG` is 0xDAB0, decimal 55984; it lies in
`[0, 2 ^ 16)`, hence fits two bytes, and storing it in an unsigned 16-bit
marker (reduction modulo `2 ^ 16`) leaves it unchanged. -/
theorem valid_settings_flag_two_bytes :
    VALID_SETTINGS_FLAG = 0xDAB0 ∧ VALID_SETTINGS_FLAG = 55984 ∧
    0 ≤ VALID_SETTINGS_FLAG ∧ VALID_SETTINGS_FLAG < 2 ^ 16 ∧
    VALID_SETTINGS_FLAG % 2 ^ 16 = VALID_SETTINGS_FLAG ∧
    wrapUnsigned 16 VALID_SETTINGS_FLAG = VALID_SETTINGS_FLAG := by
  decide

/-- C4: for every settings record `r`, `is_valid r` holds exactly when the
marker of `r` equals `VALID_SETTINGS_FLAG`; a record with any other marker is
invalid; and the answer depends on the marker alone: whatever the five text
fields hold, the check is the comparison of the marker with the flag, so two
records with the same marker get the same answer. -/
theorem is_valid_iff_marker (r : Settings) :
    (is_valid r = true ↔ r.marker = VALID_SETTINGS_FLAG) ∧
    (r.marker ≠ VALID_SETTINGS_FLAG → is_valid r = false) ∧
    (∀ s p a u t : List Nat,
      is_valid { ssid := s, password := p, address := a, username := u, topic := t,
                 marker := r.marker } = is_valid r) ∧
    (∀ r2 : Settings, r2.marker = r.marker → is_valid r2 = is_valid r) := by
  refine ⟨?_, ?_, ?_, ?_⟩
  · simp [is_valid]
  · intro h
    simp [is_valid, h]
  · intro s p a u t
    rfl
  · intro r2 h
    simp [is_valid, h]

/-- C5: the connection result codes form a closed enumeration.  The eight
header values are pairwise distinct; `result_to_int` is injective and
`int_to_result` inverts it; an integer is one of the codes exactly when it lies
between -2 and 5, so the codes are the integers from -2 to 5 without a gap, and
`int_to_result` names an outcome for those integers only; and `MQTT_SUCCESS`,
which is 0, is the code of `Success` alone, so each of the seven failure
outcomes has a code different from `MQTT_SUCCESS`. -/
theorem connection_results_closed_enumeration :
    connectionCodes.Nodup ∧ connectionCodes.length = 8 ∧
    Function.Injective result_to_int ∧
    (∀ r, int_to_result (result_to_int r) = some r) ∧
    (∀ z r, int_to_result z = some r ↔ result_to_int r = z) ∧
    (∀ z : Int, z ∈ connectionCodes ↔ -2 ≤ z ∧ z ≤ 5) ∧
    (∀ z : Int, (∃ r, result_to_int r = z) ↔ -2 ≤ z ∧ z ≤ 5) ∧
    MQTT_SUCCESS = 0 ∧
    connectionCodes.filter (fun c => decide (c = 0)) = [MQTT_SUCCESS] ∧
    (∀ r, result_to_int r = MQTT_SUCCESS ↔ r = .Success) ∧
    (∀ r, r ≠ .Success → result_to_int r ≠ MQTT_SUCCESS) := by
  have hinv : ∀ z r, int_to_result z = some r ↔ result_to_int r = z := by
    intro z r
    constructor
    · intro h
      unfold int_to_result at h
      split_ifs at h with h1 h2 h3 h4 h5 h6 h7 h8 <;>
        (cases Option.some.inj h; simp [result_to_int, *])
    · rintro rfl
      exact int_to_result_result_to_int r
  have hsucc : ∀ r, result_to_int r = MQTT_SUCCESS ↔ r = .Success := by
    intro r
    cases r <;> decide
  refine ⟨by decide, by decide, result_to_int_injective, int_to_result_result_to_int, hinv,
    mem_connectionCodes_iff, ?_, by decide, by decide, hsucc, ?_⟩
  · intro z
    constructor
    · rintro ⟨r, rfl⟩
      exact (mem_connectionCodes_iff _).mp (result_to_int_mem r)
    · intro hz
      have hm := (mem_connectionCodes_iff z).mpr hz
      simp only [connectionCodes, List.mem_cons, List.mem_singleton, List.mem_nil_iff,
        or_false] at hm
      rcases hm with h | h | h | h | h | h | h | h
      · exact ⟨.ConnectionRefused, h.symm⟩
      · exact ⟨.ConnectionTimeout, h.symm⟩
      · exact ⟨.Success, h.symm⟩
      · exact ⟨.UnacceptableProtocolVersion, h.symm⟩
      · exact ⟨.IdentifierRejected, h.symm⟩
      · exact ⟨.ServerUnavailable, h.symm⟩
      · exact ⟨.BadUserNameOrPassword, h.symm⟩
      · exact ⟨.NotAuthorized, h.symm⟩
  · intro r hr h
    exact hr ((hsucc r).mp h)

/-- C6: `VALID_SETTINGS_FLAG` differs from the all-zero pattern 0x0000 and from
the all-one pattern 0xFFFF; its high byte is 0xDA and its low byte is 0xB0, and
neither is 0x00 or 0xFF; so two storage bytes that are each 0x00 or 0xFF, as
read from zero-filled or erased storage, never assemble to the flag, whichever
byte is taken as the most significant. -/
theorem valid_settings_flag_not_blank :
    VALID_SETTINGS_FLAG ≠ 0x0000 ∧ VALID_SETTINGS_FLAG ≠ 0xFFFF ∧
    VALID_SETTINGS_FLAG / 256 = 0xDA ∧ VALID_SETTINGS_FLAG % 256 = 0xB0 ∧
    wordBE 0xDA 0xB0 = VALID_SETTINGS_FLAG ∧ wordLE 0xB0 0xDA = VALID_SETTINGS_FLAG ∧
    VALID_SETTINGS_FLAG / 256 ≠ 0x00 ∧ VALID_SETTINGS_FLAG / 256 ≠ 0xFF ∧
    VALID_SETTINGS_FLAG % 256 ≠ 0x00 ∧ VALID_SETTINGS_FLAG % 256 ≠ 0xFF ∧
    (∀ b0 b1 : Int, (b0 = 0x00 ∨ b0 = 0xFF) → (b1 = 0x00 ∨ b1 = 0xFF) →
      wordLE b0 b1 ≠ VALID_SETTINGS_FLAG ∧ wordBE b0 b1 ≠ VALID_SETTINGS_FLAG) := by
  refine ⟨by decide, by decide, by decide, by decide, by decide, by decide, by decide,
    by decide, by decide, by decide, ?_⟩
  intro b0 b1 h0 h1
  rcases h0 with h0 | h0 <;> rcases h1 with h1 | h1 <;> subst h0 <;> subst h1 <;> decide

/-- C7: every connection result code lies in the signed 8-bit range
`[-128, 127]`; stored in a signed integer of `w` bits, `w` at least 8, and read
back, each code is unchanged; and the negative codes are exactly the two codes
`MQTT_CONNECTION_REFUSED` and `MQTT_CONNECTION_TIMEOUT`. -/
theorem connection_codes_signed_small (w : Nat) (hw : 8 ≤ w) :
    (∀ c ∈ connectionCodes, -128 ≤ c ∧ c ≤ 127 ∧ wrapSigned w c = c) ∧
    connectionCodes.filter (fun c => decide (c < 0)) =
      [MQTT_CONNECTION_REFUSED, MQTT_CONNECTION_TIMEOUT] ∧
    (connectionCodes.filter (fun c => decide (c < 0))).length = 2 := by
  refine ⟨?_, by decide, by decide⟩
  intro c hc
  obtain ⟨h1, h2⟩ := (mem_connectionCodes_iff c).mp hc
  have hp := pow_pred_ge_128 w hw
  refine ⟨by omega, by omega, ?_⟩
  apply wrapSigned_eq_self w (by omega) c <;> linarith

/-- Witness of C7 at the width of a signed 8-bit integer. -/
theorem connection_codes_signed_small_witness :
    8 ≤ 8 ∧
    ((∀ c ∈ connectionCodes, -128 ≤ c ∧ c ≤ 127 ∧ wrapSigned 8 c = c) ∧
      connectionCodes.filter (fun c => decide (c < 0)) =
        [MQTT_CONNECTION_REFUSED, MQTT_CONNECTION_TIMEOUT] ∧
      (connectionCodes.filter (fun c => decide (c < 0))).length = 2) :=
  ⟨by decide, connection_codes_signed_small 8 (by decide)⟩

/-- C8: `VALID_SETTINGS_FLAG` is 55984, above the largest signed 16-bit value
32767 and below `2 ^ 16`; stored in a signed 16-bit integer the same bit
pattern reads -9552, which is 55984 - 65536 and differs from the flag; stored
in an unsigned 16-bit integer it is unchanged.  So for a 16-bit marker field
written with the flag, the comparison of the field with the flag succeeds
exactly when the field is unsigned, while the comparison modulo `2 ^ 16`
succeeds for either signedness. -/
theorem valid_settings_flag_needs_unsigned :
    VALID_SETTINGS_FLAG = 55984 ∧ (2 : Int) ^ 15 - 1 = 32767 ∧
    VALID_SETTINGS_FLAG > 2 ^ 15 - 1 ∧ VALID_SETTINGS_FLAG < 2 ^ 16 ∧
    wrapSigned 16 VALID_SETTINGS_FLAG = -9552 ∧
    wrapSigned 16 VALID_SETTINGS_FLAG = VALID_SETTINGS_FLAG - 65536 ∧
    wrapSigned 16 VALID_SETTINGS_FLAG ≠ VALID_SETTINGS_FLAG ∧
    wrapUnsigned 16 VALID_SETTINGS_FLAG = VALID_SETTINGS_FLAG ∧
    (∀ isSigned : Bool,
      storeField isSigned 16 VALID_SETTINGS_FLAG = VALID_SETTINGS_FLAG ↔ isSigned = false) ∧
    (∀ isSigned : Bool,
      storeField isSigned 16 VALID_SETTINGS_FLAG % 2 ^ 16 = VALID_SETTINGS_FLAG % 2 ^ 16) := by
  refine ⟨by decide, by decide, by decide, by decide, by decide, by decide, by decide,
    by decide, ?_, ?_⟩
  · intro b
    cases b <;> decide
  · intro b
    cases b <;> decide

/-! ## The validity check on concrete records -/

theorem is_valid_configuredRecord :
    configuredRecord.wellFormed = true ∧ is_valid configuredRecord = true := by
  decide

theorem is_valid_erasedRecord :
    erasedRecord.wellFormed = true ∧ is_valid erasedRecord = false := by
  decide

end MqttPressureSensor
